import Mathlib

/-!
# Verification of the USDA nutrition MCP server's reshaping logic

Shallow embedding of the pure transformation core of the repository:

* the nutrient classification step of `get_food_nutrition`
  (`src/mcp_http_server.py`, lines 356-413),
* the comparison builder of `compare_foods` (lines 431-528),
* the `search_foods` endpoint envelope logic (lines 271-324),
* the retry-wrapped upstream request `USDAClient._make_request` and
  `USDAClient.get_multiple_foods` (`src/usda_client.py`, lines 67-134).

JSON dictionaries from the upstream API are embedded as structures with
`Option` fields (a missing key is `none`); for the one field where the code
distinguishes a missing key from an explicit JSON `null`
(`nutrient.get("amount", 0)` in `compare_foods`), the field has type
`Option (Option Rat)`: `none` means the key is absent, `some none` means the
key is present with value `null`, and `some (some x)` is a numeric value.
Python dictionaries built by the code are embedded as association lists with
insertion-order semantics: assigning to an existing key replaces the value in
place, assigning to a fresh key appends at the end, exactly as CPython dicts
behave.
-/

set_option autoImplicit false
set_option linter.unnecessarySeqFocus false

namespace NutritionMCP

/-- One element of the upstream `foodNutrients` array:
`{"nutrient": {"id": ..., "name": ..., "unitName": ...}, "amount": ...}`.
`nutrientId`, `nutrientName`, `unitName` are `none` when the nested key (or
the whole `nutrient` object) is missing; `amount` distinguishes a missing key
(`none`) from an explicit `null` (`some none`). -/
structure FoodNutrient where
  nutrientId : Option Int
  nutrientName : Option String
  unitName : Option String
  amount : Option (Option Rat)
deriving DecidableEq, Repr

/-- The `{"name": ..., "amount": ..., "unit": ...}` value stored in the
classification buckets (`nutrient_data` in the source). -/
structure NutrientData where
  name : Option String
  amount : Rat
  unit : Option String
deriving DecidableEq, Repr

/-- Python dict assignment `d[k] = v` on an insertion-ordered association
list: replace in place if the key exists, else append at the end. -/
def dictUpd {α β : Type} [DecidableEq α] : List (α × β) → α → β → List (α × β)
  | [], k, v => [(k, v)]
  | (k', v') :: t, k, v =>
    if k' = k then (k, v) :: t else (k', v') :: dictUpd t k v

/-- The static `macro_nutrients` id→label table (6 ids). -/
def macro_nutrients : List (Int × String) :=
  [(1008, "Energy (kcal)"), (1003, "Protein"), (1004, "Total Fat"),
   (1005, "Carbohydrate"), (1079, "Fiber"), (2000, "Sugar")]

/-- The static `vitamin_nutrients` id→label table (5 ids). -/
def vitamin_nutrients : List (Int × String) :=
  [(1106, "Vitamin A"), (1162, "Vitamin C"), (1114, "Vitamin D"),
   (1109, "Vitamin E"), (1185, "Folate")]

/-- The static `mineral_nutrients` id→label table (7 ids). -/
def mineral_nutrients : List (Int × String) :=
  [(1087, "Calcium"), (1089, "Iron"), (1090, "Magnesium"),
   (1091, "Phosphorus"), (1092, "Potassium"), (1093, "Sodium"),
   (1095, "Zinc")]

/-- Python `nutrient_id in table` for a dict keyed by ints; a missing id
(`None`) is in no table. -/
def idInTable (i : Option Int) (t : List (Int × String)) : Bool :=
  match i with
  | some v => t.any (fun p => p.1 = v)
  | none => false

/-- The four buckets of `nutrition_summary["nutrition"]`. Bucket keys are the
upstream-provided nutrient names (which may be missing, hence `Option`). -/
structure NutritionBuckets where
  macronutrients : List (Option String × NutrientData)
  vitamins : List (Option String × NutrientData)
  minerals : List (Option String × NutrientData)
  other_nutrients : List NutrientData
deriving DecidableEq, Repr

def emptyBuckets : NutritionBuckets := ⟨[], [], [], []⟩

/-- One iteration of the `for nutrient in food_nutrients:` loop of
`get_food_nutrition` (source lines 385-413). -/
def classifyStep (s : NutritionBuckets) (n : FoodNutrient) : NutritionBuckets :=
  match n.amount with
  | some (some amt) =>
    let nd : NutrientData := ⟨n.nutrientName, amt, n.unitName⟩
    if idInTable n.nutrientId macro_nutrients then
      { s with macronutrients := dictUpd s.macronutrients n.nutrientName nd }
    else if idInTable n.nutrientId vitamin_nutrients then
      { s with vitamins := dictUpd s.vitamins n.nutrientName nd }
    else if idInTable n.nutrientId mineral_nutrients then
      { s with minerals := dictUpd s.minerals n.nutrientName nd }
    else if s.other_nutrients.length < 10 then
      { s with other_nutrients := s.other_nutrients ++ [nd] }
    else s
  | _ => s

/-- The whole categorization pass of `get_food_nutrition` over
`foodNutrients`. -/
def classify (ns : List FoodNutrient) : NutritionBuckets :=
  ns.foldl classifyStep emptyBuckets

/-! ## Spec-side model of the classification algorithm (for the C1
refinement): drop null-amount records first, then place each surviving record
by the first matching table in the priority order macro, vitamin, mineral;
unmatched records go to `other` only while its length is below 10. -/

inductive BucketKind where
  | macroB
  | vitaminB
  | mineralB
deriving DecidableEq, Repr

/-- Spec wording: "look up its id in each table in a fixed priority order
(macro, then vitamin, then mineral); on first match, place ... into that
bucket". -/
def firstMatch (i : Option Int) : Option BucketKind :=
  if idInTable i macro_nutrients then some BucketKind.macroB
  else if idInTable i vitamin_nutrients then some BucketKind.vitaminB
  else if idInTable i mineral_nutrients then some BucketKind.mineralB
  else none

/-- Spec wording: "Records with null amount are dropped." A surviving record
is its id together with the `{name, amount, unit}` payload. -/
def validRecord (n : FoodNutrient) : Option (Option Int × NutrientData) :=
  match n.amount with
  | some (some a) => some (n.nutrientId, ⟨n.nutrientName, a, n.unitName⟩)
  | _ => none

/-- Spec wording: place into the first-matching bucket keyed by nutrient name
(last-write-wins); "on no match, append to `other` only while its length is
below 10". -/
def specPlace (s : NutritionBuckets) (p : Option Int × NutrientData) :
    NutritionBuckets :=
  match firstMatch p.1 with
  | some BucketKind.macroB =>
    { s with macronutrients := dictUpd s.macronutrients p.2.name p.2 }
  | some BucketKind.vitaminB =>
    { s with vitamins := dictUpd s.vitamins p.2.name p.2 }
  | some BucketKind.mineralB =>
    { s with minerals := dictUpd s.minerals p.2.name p.2 }
  | none =>
    if s.other_nutrients.length < 10 then
      { s with other_nutrients := s.other_nutrients ++ [p.2] }
    else s

/-- The classification algorithm as §4.2 of the spec words it. -/
def classifySpec (ns : List FoodNutrient) : NutritionBuckets :=
  (ns.filterMap validRecord).foldl specPlace emptyBuckets

lemma classifyStep_eq_specPlace (s : NutritionBuckets) (n : FoodNutrient)
    (a : Rat) (h : n.amount = some (some a)) :
    classifyStep s n = specPlace s (n.nutrientId, ⟨n.nutrientName, a, n.unitName⟩) := by
  unfold classifyStep specPlace firstMatch
  rw [h]
  by_cases h1 : idInTable n.nutrientId macro_nutrients = true <;>
    by_cases h2 : idInTable n.nutrientId vitamin_nutrients = true <;>
      by_cases h3 : idInTable n.nutrientId mineral_nutrients = true <;>
        simp [h1, h2, h3]

lemma foldl_classifyStep_eq (ns : List FoodNutrient) :
    ∀ s : NutritionBuckets,
      ns.foldl classifyStep s = (ns.filterMap validRecord).foldl specPlace s := by
  induction ns with
  | nil => intro s; rfl
  | cons n t ih =>
    intro s
    match h : n.amount with
    | none =>
      have hstep : classifyStep s n = s := by simp [classifyStep, h]
      have hval : validRecord n = none := by simp [validRecord, h]
      simp only [List.foldl_cons, List.filterMap_cons, hval, hstep]
      exact ih s
    | some none =>
      have hstep : classifyStep s n = s := by simp [classifyStep, h]
      have hval : validRecord n = none := by simp [validRecord, h]
      simp only [List.foldl_cons, List.filterMap_cons, hval, hstep]
      exact ih s
    | some (some a) =>
      have hval : validRecord n = some (n.nutrientId, ⟨n.nutrientName, a, n.unitName⟩) := by
        simp [validRecord, h]
      simp only [List.foldl_cons, List.filterMap_cons, hval,
        classifyStep_eq_specPlace s n a h]
      exact ih _

/-- The concrete scenario input of the spec's §8. -/
def c1Input : List FoodNutrient :=
  [⟨some 1003, some "Protein", some "g", some (some 31)⟩,
   ⟨some 9999, some "Mystery", some "mg", some (some 5)⟩]

/-- Expected output of the scenario: Protein in `macronutrients`, Mystery in
`other_nutrients`. -/
def c1Expected : NutritionBuckets :=
  { macronutrients := [(some "Protein", ⟨some "Protein", 31, some "g"⟩)],
    vitamins := [],
    minerals := [],
    other_nutrients := [⟨some "Mystery", 5, some "mg"⟩] }

/-- **C1.** The categorization step of `get_food_nutrition` processes each
record with a non-null amount by looking up its id in the macro, then
vitamin, then mineral table in that priority order, placing `{name, amount,
unit}` into the first matching bucket keyed by nutrient name with
last-write-wins on duplicate names, appending non-matching records to `other`
(while it is below its cap) and dropping every record with a null amount:
`classify` coincides with the spec-worded algorithm `classifySpec` on every
input, and the spec's concrete scenario evaluates as stated. -/
theorem c1_classification_matches_spec :
    (∀ ns : List FoodNutrient, classify ns = classifySpec ns) ∧
      classify c1Input = c1Expected :=
  ⟨fun ns => foldl_classifyStep_eq ns emptyBuckets, rfl⟩

lemma other_length_le (ns : List FoodNutrient) :
    ∀ s : NutritionBuckets, s.other_nutrients.length ≤ 10 →
      ((ns.foldl classifyStep s).other_nutrients).length ≤ 10 := by
  induction ns with
  | nil => intro s hs; exact hs
  | cons n t ih =>
    intro s hs
    refine ih (classifyStep s n) ?_
    unfold classifyStep
    match h : n.amount with
    | none => exact hs
    | some none => exact hs
    | some (some a) =>
      by_cases h1 : idInTable n.nutrientId macro_nutrients = true <;>
        by_cases h2 : idInTable n.nutrientId vitamin_nutrients = true <;>
          by_cases h3 : idInTable n.nutrientId mineral_nutrients = true <;>
            by_cases h4 : s.other_nutrients.length < 10 <;>
              simp [h1, h2, h3, h4, hs] <;> omega

/-- **C2.** The `other_nutrients` bucket never exceeds 10 entries, whatever
the input: entries beyond the cap are dropped. -/
theorem c2_other_bucket_capped (ns : List FoodNutrient) :
    ((classify ns).other_nutrients).length ≤ 10 :=
  other_length_le ns emptyBuckets (by simp [emptyBuckets])

/-! ## Provenance of the three keyed buckets (C3) -/

lemma mem_dictUpd {α β : Type} [DecidableEq α] (d : List (α × β)) (k : α)
    (v : β) (kv : α × β) (h : kv ∈ dictUpd d k v) : kv ∈ d ∨ kv = (k, v) := by
  induction d with
  | nil => simpa [dictUpd] using h
  | cons p t ih =>
    by_cases hk : p.1 = k
    · rw [show dictUpd (p :: t) k v = (k, v) :: t by
        cases p; simp [dictUpd]; simp_all] at h
      rcases List.mem_cons.1 h with h | h
      · exact Or.inr h
      · exact Or.inl (List.mem_cons_of_mem _ h)
    · rw [show dictUpd (p :: t) k v = p :: dictUpd t k v by
        cases p; simp [dictUpd]; simp_all] at h
      rcases List.mem_cons.1 h with h | h
      · exact Or.inl (h ▸ List.mem_cons_self _ _)
      · rcases ih h with h | h
        · exact Or.inl (List.mem_cons_of_mem _ h)
        · exact Or.inr h

/-- Shape of a bucket entry generated by a single source record `n`. -/
def fromRecord (n : FoodNutrient) (kv : Option String × NutrientData) : Prop :=
  ∃ a : Rat, n.amount = some (some a) ∧
    kv = (n.nutrientName, ⟨n.nutrientName, a, n.unitName⟩)

lemma mem_macro_classifyStep (s : NutritionBuckets) (n : FoodNutrient)
    (kv : Option String × NutrientData)
    (h : kv ∈ (classifyStep s n).macronutrients) :
    kv ∈ s.macronutrients ∨
      (idInTable n.nutrientId macro_nutrients = true ∧ fromRecord n kv) := by
  unfold classifyStep at h
  match ha : n.amount with
  | none => rw [ha] at h; exact Or.inl h
  | some none => rw [ha] at h; exact Or.inl h
  | some (some a) =>
    rw [ha] at h
    by_cases h1 : idInTable n.nutrientId macro_nutrients = true
    · simp only [h1, if_true] at h
      rcases mem_dictUpd _ _ _ _ h with h | h
      · exact Or.inl h
      · exact Or.inr ⟨h1, a, ha, h⟩
    · simp only [h1, if_false] at h
      by_cases h2 : idInTable n.nutrientId vitamin_nutrients = true <;>
        by_cases h3 : idInTable n.nutrientId mineral_nutrients = true <;>
          by_cases h4 : s.other_nutrients.length < 10 <;>
            simp_all

lemma mem_vitamin_classifyStep (s : NutritionBuckets) (n : FoodNutrient)
    (kv : Option String × NutrientData)
    (h : kv ∈ (classifyStep s n).vitamins) :
    kv ∈ s.vitamins ∨
      (idInTable n.nutrientId vitamin_nutrients = true ∧ fromRecord n kv) := by
  unfold classifyStep at h
  match ha : n.amount with
  | none => rw [ha] at h; exact Or.inl h
  | some none => rw [ha] at h; exact Or.inl h
  | some (some a) =>
    rw [ha] at h
    by_cases h1 : idInTable n.nutrientId macro_nutrients = true
    · simp only [h1, if_true] at h; exact Or.inl h
    · simp only [h1, if_false] at h
      by_cases h2 : idInTable n.nutrientId vitamin_nutrients = true
      · simp only [h2, if_true] at h
        rcases mem_dictUpd _ _ _ _ h with h | h
        · exact Or.inl h
        · exact Or.inr ⟨h2, a, ha, h⟩
      · simp only [h2, if_false] at h
        by_cases h3 : idInTable n.nutrientId mineral_nutrients = true <;>
          by_cases h4 : s.other_nutrients.length < 10 <;>
            simp_all

lemma mem_mineral_classifyStep (s : NutritionBuckets) (n : FoodNutrient)
    (kv : Option String × NutrientData)
    (h : kv ∈ (classifyStep s n).minerals) :
    kv ∈ s.minerals ∨
      (idInTable n.nutrientId mineral_nutrients = true ∧ fromRecord n kv) := by
  unfold classifyStep at h
  match ha : n.amount with
  | none => rw [ha] at h; exact Or.inl h
  | some none => rw [ha] at h; exact Or.inl h
  | some (some a) =>
    rw [ha] at h
    by_cases h1 : idInTable n.nutrientId macro_nutrients = true
    · simp only [h1, if_true] at h; exact Or.inl h
    · simp only [h1, if_false] at h
      by_cases h2 : idInTable n.nutrientId vitamin_nutrients = true
      · simp only [h2, if_true] at h; exact Or.inl h
      · simp only [h2, if_false] at h
        by_cases h3 : idInTable n.nutrientId mineral_nutrients = true
        · simp only [h3, if_true] at h
          rcases mem_dictUpd _ _ _ _ h with h | h
          · exact Or.inl h
          · exact Or.inr ⟨h3, a, ha, h⟩
        · simp only [h3, if_false] at h
          by_cases h4 : s.other_nutrients.length < 10 <;> simp_all

lemma mem_macro_foldl (ns : List FoodNutrient) :
    ∀ (s : NutritionBuckets) (kv : Option String × NutrientData),
      kv ∈ ((ns.foldl classifyStep s).macronutrients) →
      kv ∈ s.macronutrients ∨
        ∃ n ∈ ns, idInTable n.nutrientId macro_nutrients = true ∧ fromRecord n kv := by
  induction ns with
  | nil => intro s kv h; exact Or.inl h
  | cons n t ih =>
    intro s kv h
    rcases ih (classifyStep s n) kv h with h | ⟨m, hm, hmat⟩
    · rcases mem_macro_classifyStep s n kv h with h | h
      · exact Or.inl h
      · exact Or.inr ⟨n, List.mem_cons_self _ _, h⟩
    · exact Or.inr ⟨m, List.mem_cons_of_mem _ hm, hmat⟩

lemma mem_vitamin_foldl (ns : List FoodNutrient) :
    ∀ (s : NutritionBuckets) (kv : Option String × NutrientData),
      kv ∈ ((ns.foldl classifyStep s).vitamins) →
      kv ∈ s.vitamins ∨
        ∃ n ∈ ns, idInTable n.nutrientId vitamin_nutrients = true ∧ fromRecord n kv := by
  induction ns with
  | nil => intro s kv h; exact Or.inl h
  | cons n t ih =>
    intro s kv h
    rcases ih (classifyStep s n) kv h with h | ⟨m, hm, hmat⟩
    · rcases mem_vitamin_classifyStep s n kv h with h | h
      · exact Or.inl h
      · exact Or.inr ⟨n, List.mem_cons_self _ _, h⟩
    · exact Or.inr ⟨m, List.mem_cons_of_mem _ hm, hmat⟩

lemma mem_mineral_foldl (ns : List FoodNutrient) :
    ∀ (s : NutritionBuckets) (kv : Option String × NutrientData),
      kv ∈ ((ns.foldl classifyStep s).minerals) →
      kv ∈ s.minerals ∨
        ∃ n ∈ ns, idInTable n.nutrientId mineral_nutrients = true ∧ fromRecord n kv := by
  induction ns with
  | nil => intro s kv h; exact Or.inl h
  | cons n t ih =>
    intro s kv h
    rcases ih (classifyStep s n) kv h with h | ⟨m, hm, hmat⟩
    · rcases mem_mineral_classifyStep s n kv h with h | h
      · exact Or.inl h
      · exact Or.inr ⟨n, List.mem_cons_self _ _, h⟩
    · exact Or.inr ⟨m, List.mem_cons_of_mem _ hm, hmat⟩

/-- **C3.** Every entry of each keyed bucket comes from an input record whose
id lies in that bucket's static table (macro: 6 ids, vitamin: 5 ids, mineral:
7 ids), and the three id tables are pairwise disjoint, so no nutrient id can
ever populate more than one bucket of the same result. -/
theorem c3_buckets_respect_tables :
    (∀ (ns : List FoodNutrient) (kv : Option String × NutrientData),
        kv ∈ (classify ns).macronutrients →
        ∃ n ∈ ns, idInTable n.nutrientId macro_nutrients = true ∧ fromRecord n kv) ∧
    (∀ (ns : List FoodNutrient) (kv : Option String × NutrientData),
        kv ∈ (classify ns).vitamins →
        ∃ n ∈ ns, idInTable n.nutrientId vitamin_nutrients = true ∧ fromRecord n kv) ∧
    (∀ (ns : List FoodNutrient) (kv : Option String × NutrientData),
        kv ∈ (classify ns).minerals →
        ∃ n ∈ ns, idInTable n.nutrientId mineral_nutrients = true ∧ fromRecord n kv) ∧
    ((macro_nutrients.map Prod.fst).length = 6 ∧
      (vitamin_nutrients.map Prod.fst).length = 5 ∧
      (mineral_nutrients.map Prod.fst).length = 7) ∧
    ((∀ i ∈ macro_nutrients.map Prod.fst,
        i ∉ vitamin_nutrients.map Prod.fst ∧ i ∉ mineral_nutrients.map Prod.fst) ∧
      ∀ i ∈ vitamin_nutrients.map Prod.fst, i ∉ mineral_nutrients.map Prod.fst) := by
  refine ⟨?_, ?_, ?_, by decide, by decide⟩
  · intro ns kv h
    rcases mem_macro_foldl ns emptyBuckets kv h with h | h
    · simp [emptyBuckets] at h
    · exact h
  · intro ns kv h
    rcases mem_vitamin_foldl ns emptyBuckets kv h with h | h
    · simp [emptyBuckets] at h
    · exact h
  · intro ns kv h
    rcases mem_mineral_foldl ns emptyBuckets kv h with h | h
    · simp [emptyBuckets] at h
    · exact h

/-- Concrete input for instantiating `c3_buckets_respect_tables`. -/
def c3Input : List FoodNutrient :=
  [⟨some 1087, some "Calcium", some "mg", some (some 100)⟩]

/-- Witness for C3: the provenance statement instantiated at a concrete
one-record input whose id 1087 lies in the mineral table. -/
theorem c3_buckets_respect_tables_witness :
    ∃ n ∈ c3Input, idInTable n.nutrientId mineral_nutrients = true ∧
      fromRecord n (some "Calcium", ⟨some "Calcium", 100, some "mg"⟩) :=
  c3_buckets_respect_tables.2.2.1 c3Input
    (some "Calcium", ⟨some "Calcium", 100, some "mg"⟩) (by decide)

/-! ## The `compare_foods` endpoint (source lines 431-536) -/

/-- The response envelope `MCPResponse` of `src/models/responses.py` (the
server-assigned `timestamp` field, a wall-clock value outside every claim, is
not modelled). -/
structure MCPResponse (α : Type) where
  success : Bool
  data : Option α := none
  error : Option String := none
  tool : Option String := none
  message : Option String := none
deriving DecidableEq, Repr

/-- A raw food payload as consumed by `compare_foods`: the fields it reads
via `food.get(...)`. -/
structure CompareFood where
  fdcId : Option Int
  description : Option String
  dataType : Option String
  foodNutrients : List FoodNutrient
deriving DecidableEq, Repr

/-- The static `key_nutrients` allow-list of `compare_foods` (8 ids). -/
def key_nutrients : List (Int × String) :=
  [(1008, "Energy (kcal)"), (1003, "Protein"), (1004, "Total Fat"),
   (1005, "Carbohydrate"), (1079, "Fiber"), (1087, "Calcium"),
   (1089, "Iron"), (1162, "Vitamin C")]

/-- `key_nutrients[nutrient_id]` guarded by `nutrient_id in key_nutrients`:
the display name when the id is allow-listed, else `none`. -/
def keyNutrientName (i : Option Int) : Option String :=
  match i with
  | some v => (key_nutrients.find? (fun p => p.1 == v)).map Prod.snd
  | none => none

/-- `nutrient.get("amount", 0)`: a missing key defaults to `0`; an explicit
JSON `null` is passed through as `None`. -/
def compareAmount (a : Option (Option Rat)) : Option Rat :=
  match a with
  | none => some 0
  | some v => v

/-- A `{food, amount, unit}` row entry of `nutrient_comparison`. -/
structure CompareEntry where
  food : Option String
  amount : Option Rat
  unit : String
deriving DecidableEq, Repr

/-- The `amount`/`unit` value stored in `food_summary["nutrients"]`. -/
structure CompareNutrientVal where
  amount : Option Rat
  unit : String
deriving DecidableEq, Repr

/-- The `food_summary` dict built per food. -/
structure FoodSummary where
  fdc_id : Option Int
  description : Option String
  data_type : Option String
  nutrients : List (String × CompareNutrientVal)
deriving DecidableEq, Repr

/-- The comparison-matrix entry built from food `f` and nutrient `n`
(source lines 513-519). -/
def mkCompareEntry (f : CompareFood) (n : FoodNutrient) : CompareEntry :=
  ⟨f.description, compareAmount n.amount, n.unitName.getD ""⟩

/-- The `nutrient_comparison` dict: display name → row of entries. -/
abbrev CompareTable := List (String × List CompareEntry)

/-- Adding one entry to the matrix: create the row at the end on first use of
the key, else append to the existing row in place (source lines 509-519). -/
def tableInsert : CompareTable → String → CompareEntry → CompareTable
  | [], k, e => [(k, [e])]
  | (k', es) :: t, k, e =>
    if k' = k then (k', es ++ [e]) :: t else (k', es) :: tableInsert t k e

/-- One iteration of the `for nutrient in food.get("foodNutrients", [])`
loop (source lines 495-519), threading the per-food summary and the shared
comparison matrix. -/
def processNutrient (f : CompareFood) (st : FoodSummary × CompareTable)
    (n : FoodNutrient) : FoodSummary × CompareTable :=
  match keyNutrientName n.nutrientId with
  | some name =>
    let amount := compareAmount n.amount
    let unit := n.unitName.getD ""
    ({ st.1 with nutrients := dictUpd st.1.nutrients name ⟨amount, unit⟩ },
      tableInsert st.2 name ⟨f.description, amount, unit⟩)
  | none => st

/-- Processing one food of `foods_data` (source lines 486-521). -/
def processFood (t : CompareTable) (f : CompareFood) :
    FoodSummary × CompareTable :=
  f.foodNutrients.foldl (processNutrient f)
    (⟨f.fdcId, f.description, f.dataType, []⟩, t)

/-- The `comparison` dict assembled by `compare_foods`. -/
structure Comparison where
  foods : List FoodSummary
  nutrient_comparison : CompareTable
  total_foods_compared : Nat
  comparison_notes : List String
deriving DecidableEq, Repr

/-- Building the whole comparison structure from the successfully fetched
foods (source lines 461-521). -/
def buildComparison (foods : List CompareFood) : Comparison :=
  let st := foods.foldl
    (fun (acc : List FoodSummary × CompareTable) f =>
      let r := processFood acc.2 f
      (acc.1 ++ [r.1], r.2))
    ([], [])
  { foods := st.1,
    nutrient_comparison := st.2,
    total_foods_compared := foods.length,
    comparison_notes :=
      ["Values shown are per 100g unless otherwise specified",
       "Use this data to compare foods for your dietary goals"] }

/-- Starlette's `HTTPException.__str__`: `"{status_code}: {detail}"`. -/
def httpExceptionMessage (code : Nat) (detail : String) : String :=
  toString code ++ ": " ++ detail

/-- The `compare_foods` endpoint. `fetch` abstracts
`usda_client.get_food_details`: per-id success or failure. Besides the
response envelope it returns the trace of fdc ids for which an upstream fetch
was attempted. The in-function `len > 5` guard raises an `HTTPException`
that the surrounding `except Exception` turns into a failure envelope. -/
def compare_foods (fdc_ids : List Int)
    (fetch : Int → Except String CompareFood) :
    MCPResponse Comparison × List Int :=
  if fdc_ids.length > 5 then
    ({ success := false,
       error := some ("Failed to compare foods: " ++
         httpExceptionMessage 400 "Maximum 5 foods can be compared"),
       tool := some "compare_foods" }, [])
  else
    let foods_data := fdc_ids.filterMap (fun i => (fetch i).toOption)
    if foods_data.isEmpty then
      ({ success := false,
         error := some "No valid food data found for comparison",
         tool := some "compare_foods" }, fdc_ids)
    else
      ({ success := true,
         data := some (buildComparison foods_data),
         tool := some "compare_foods",
         message := some ("Successfully compared " ++
           toString foods_data.length ++ " foods") }, fdc_ids)

/-! ## The upstream client: `USDAClient._make_request` under the
`tenacity.retry` decorator (`stop_after_attempt(3)`,
`wait_exponential(multiplier=1, min=4, max=10)`), and
`USDAClient.get_multiple_foods`. -/

/-- What a single network attempt would produce: a parsed payload, an HTTP
error status (a non-2xx response), or a transport-level failure. -/
inductive NetOutcome (α : Type) where
  | ok (a : α)
  | httpStatus (code : Nat)
  | netFail (msg : String)
deriving DecidableEq, Repr

def NetOutcome.isFail {α : Type} : NetOutcome α → Bool
  | .ok _ => false
  | _ => true

/-- The exceptions `_make_request` can raise: the not-configured guard, the
re-raised `HTTPStatusError` (`"USDA API error: {status}"`), any other
transport exception, the `ValueError` of `get_multiple_foods`, and tenacity's
`RetryError` wrapping the last attempt's exception. -/
inductive ReqErr where
  | notConfigured
  | usdaApiError (status : Nat)
  | requestFailed (msg : String)
  | valueError (msg : String)
  | retryError (last : ReqErr)
deriving DecidableEq, Repr

/-- One attempt of the `_make_request` body: the configuration guard runs
before any network activity (second component counts network calls issued:
0 when unconfigured, 1 otherwise). -/
def attemptBody {α : Type} (configured : Bool) (out : NetOutcome α) :
    Except ReqErr α × Nat :=
  match configured with
  | false => (Except.error ReqErr.notConfigured, 0)
  | true =>
    match out with
    | .ok a => (Except.ok a, 1)
    | .httpStatus c => (Except.error (ReqErr.usdaApiError c), 1)
    | .netFail m => (Except.error (ReqErr.requestFailed m), 1)

/-- tenacity's `wait_exponential(multiplier=1, min=4, max=10)` delay after
the `attempt`-th failed attempt: `max(min, min(multiplier * 2^(attempt-1),
max))`. -/
def waitExp (attempt : Nat) : Rat :=
  max 4 (min ((2 : Rat) ^ (attempt - 1)) 10)

/-- Observable trace of one retry-wrapped call: final outcome, number of
body attempts made, number of network calls issued, backoff delays slept. -/
structure RunResult (α : Type) where
  result : Except ReqErr α
  attempts : Nat
  networkCalls : Nat
  waits : List Rat
deriving Repr

/-- The `@retry(stop=stop_after_attempt(3), wait=wait_exponential(...))`
wrapper around `_make_request`, unrolled to its three attempts. tenacity's
default retry predicate retries on every exception; after the third failed
attempt it raises `RetryError` wrapping the last exception. `outcomes n` is
what the network would return on attempt `n`. -/
def runRetry {α : Type} (configured : Bool) (outcomes : Nat → NetOutcome α) :
    RunResult α :=
  let a1 := attemptBody configured (outcomes 1)
  match a1.1 with
  | Except.ok v => ⟨Except.ok v, 1, a1.2, []⟩
  | Except.error _ =>
    let a2 := attemptBody configured (outcomes 2)
    match a2.1 with
    | Except.ok v => ⟨Except.ok v, 2, a1.2 + a2.2, [waitExp 1]⟩
    | Except.error _ =>
      let a3 := attemptBody configured (outcomes 3)
      match a3.1 with
      | Except.ok v => ⟨Except.ok v, 3, a1.2 + a2.2 + a3.2, [waitExp 1, waitExp 2]⟩
      | Except.error e3 =>
        ⟨Except.error (ReqErr.retryError e3), 3, a1.2 + a2.2 + a3.2,
          [waitExp 1, waitExp 2]⟩

/-- `USDAClient.get_multiple_foods`: the `len(fdc_ids) > 20` guard raises a
`ValueError` before `_make_request` is ever entered; otherwise the POST goes
through the retry-wrapped request. Returns the outcome plus the number of
network calls issued. -/
def getMultipleFoods {α : Type} (configured : Bool) (fdcIds : List Int)
    (outcomes : Nat → NetOutcome α) : Except ReqErr α × Nat :=
  if fdcIds.length > 20 then
    (Except.error (ReqErr.valueError "Maximum 20 foods can be requested at once"), 0)
  else
    let r := runRetry configured outcomes
    (r.result, r.networkCalls)

lemma waitExp_one : waitExp 1 = 4 := by norm_num [waitExp]

lemma waitExp_two : waitExp 2 = 4 := by norm_num [waitExp]

/-- **C4.** A comparison request with more than 5 ids fails (invalid-input
failure envelope naming the 5-food limit) with an empty upstream-fetch trace,
and a batch fetch with more than 20 ids fails with the `ValueError` naming
the 20-food limit while issuing zero network calls: both size checks run
before any fetch is attempted. -/
theorem c4_size_checks_precede_fetches
    (ids : List Int) (fetch : Int → Except String CompareFood)
    (ids2 : List Int) (configured : Bool)
    (outcomes : Nat → NetOutcome (List CompareFood)) :
    (ids.length > 5 →
      (compare_foods ids fetch).2 = [] ∧
      (compare_foods ids fetch).1.success = false ∧
      (compare_foods ids fetch).1.error =
        some ("Failed to compare foods: " ++
          httpExceptionMessage 400 "Maximum 5 foods can be compared")) ∧
    (ids2.length > 20 →
      (getMultipleFoods configured ids2 outcomes).2 = 0 ∧
      (getMultipleFoods configured ids2 outcomes).1 =
        Except.error (ReqErr.valueError "Maximum 20 foods can be requested at once")) := by
  constructor
  · intro h
    simp [compare_foods, h]
  · intro h
    simp [getMultipleFoods, h]

def c4Fetch : Int → Except String CompareFood := fun _ => Except.error "unreachable"

def c4Ids2 : List Int := (List.range 21).map Int.ofNat

def c4Outcomes : Nat → NetOutcome (List CompareFood) := fun _ => NetOutcome.ok []

/-- Witness for C4 at a 6-id comparison and a 21-id batch fetch. -/
theorem c4_size_checks_precede_fetches_witness :
    (compare_foods [1, 2, 3, 4, 5, 6] c4Fetch).2 = [] ∧
    (compare_foods [1, 2, 3, 4, 5, 6] c4Fetch).1.success = false ∧
    (getMultipleFoods true c4Ids2 c4Outcomes).2 = 0 ∧
    (getMultipleFoods true c4Ids2 c4Outcomes).1 =
      Except.error (ReqErr.valueError "Maximum 20 foods can be requested at once") := by
  have h := c4_size_checks_precede_fetches [1, 2, 3, 4, 5, 6] c4Fetch c4Ids2
    true c4Outcomes
  have h1 := h.1 (by decide)
  have h2 := h.2 (by decide)
  exact ⟨h1.1, h1.2.1, h2.1, h2.2⟩

/-- **C5.** Inside a comparison, one food's fetch failure is skipped without
aborting the rest: the response envelope is the one obtained from the id
list with the failing id removed; and when every fetch fails the endpoint
returns an explicit failure envelope (`success=false`, error "No valid food
data found for comparison", no data) rather than an empty success. -/
theorem c5_fetch_failures_skipped
    (l1 l2 : List Int) (j : Int) (fetch : Int → Except String CompareFood)
    (hlen : (l1 ++ j :: l2).length ≤ 5)
    (hj : (fetch j).toOption = none) :
    (compare_foods (l1 ++ j :: l2) fetch).1 = (compare_foods (l1 ++ l2) fetch).1 ∧
    (∀ ids : List Int, ids.length ≤ 5 →
      (∀ i ∈ ids, (fetch i).toOption = none) →
      (compare_foods ids fetch).1.success = false ∧
      (compare_foods ids fetch).1.error = some "No valid food data found for comparison" ∧
      (compare_foods ids fetch).1.data = none) := by
  constructor
  · have h5 : ¬ (l1 ++ j :: l2).length > 5 := by omega
    have h5' : ¬ (l1 ++ l2).length > 5 := by
      simp only [List.length_append, List.length_cons] at hlen ⊢
      omega
    have hdata : (l1 ++ j :: l2).filterMap (fun i => (fetch i).toOption) =
        (l1 ++ l2).filterMap (fun i => (fetch i).toOption) := by
      simp [List.filterMap_append, List.filterMap_cons, hj]
    simp only [compare_foods, if_neg h5, if_neg h5', hdata]
    split <;> rfl
  · intro ids hle hall
    have hnil : ids.filterMap (fun i => (fetch i).toOption) = [] := by
      simp only [List.filterMap_eq_nil_iff]
      exact hall
    have h5 : ¬ ids.length > 5 := by omega
    simp [compare_foods, if_neg h5, hnil]

def c5Food : CompareFood :=
  ⟨some 7, some "Apple", some "Foundation", []⟩

def c5Fetch : Int → Except String CompareFood :=
  fun i => if i = 3 then Except.error "timeout" else Except.ok c5Food

/-- Witness for C5: with ids `[1, 3, 2]` where id 3 fails, the envelope
equals the one for `[1, 2]`; with the single failing id `[3]`, the empty
failure envelope comes back. -/
theorem c5_fetch_failures_skipped_witness :
    ((compare_foods [1, 3, 2] c5Fetch).1 = (compare_foods [1, 2] c5Fetch).1) ∧
    ((compare_foods [3] c5Fetch).1.success = false ∧
      (compare_foods [3] c5Fetch).1.error = some "No valid food data found for comparison" ∧
      (compare_foods [3] c5Fetch).1.data = none) := by
  have h := c5_fetch_failures_skipped [1] [2] 3 c5Fetch (by decide) (by decide)
  exact ⟨h.1, h.2 [3] (by decide) (by decide)⟩

/-- **C6 (amended).** With no API key the client is unconfigured and every
retry-wrapped call fails with the not-configured error having issued zero
network calls; however, the failure is not exempt from the generic retry
wrapper: the guard exception is raised and retried on all 3 attempts (with
backoff sleeps) before surfacing wrapped in a `RetryError`. -/
theorem c6_unconfigured_fails_without_network {α : Type}
    (outcomes : Nat → NetOutcome α) :
    runRetry false outcomes =
      { result := Except.error (ReqErr.retryError ReqErr.notConfigured),
        attempts := 3, networkCalls := 0, waits := [4, 4] } := by
  simp [runRetry, attemptBody, waitExp_one, waitExp_two]

/-- Counterexample to C6 as stated: the claim's "without any retry attempts"
would mean a single attempt, but the unconfigured call makes 3 attempts (the
guard exception is retried like any other). -/
theorem c6_unconfigured_fails_without_network_counterexample :
    (runRetry false (fun _ => NetOutcome.ok ())).attempts = 3 ∧
    (runRetry false (fun _ => NetOutcome.ok ())).attempts ≠ 1 := by
  decide

/-- **C7.** The retry-wrapped request makes at most 3 attempts; if the first
two attempts fail and the third succeeds, the caller receives the successful
payload with no error surfaced (after two exponential-backoff sleeps, both
clamped to 4 time units by `min=4`); if all 3 attempts fail with HTTP status
errors, the call fails with a `RetryError` wrapping the `UpstreamError` that
carries the last HTTP status. -/
theorem c7_retry_semantics {α : Type} (outcomes : Nat → NetOutcome α) (p : α) :
    ((runRetry true outcomes).attempts ≤ 3) ∧
    ((outcomes 1).isFail = true → (outcomes 2).isFail = true →
      outcomes 3 = NetOutcome.ok p →
      runRetry true outcomes =
        { result := Except.ok p, attempts := 3, networkCalls := 3, waits := [4, 4] }) ∧
    (∀ s1 s2 s3 : Nat, outcomes 1 = NetOutcome.httpStatus s1 →
      outcomes 2 = NetOutcome.httpStatus s2 →
      outcomes 3 = NetOutcome.httpStatus s3 →
      runRetry true outcomes =
        { result := Except.error (ReqErr.retryError (ReqErr.usdaApiError s3)),
          attempts := 3, networkCalls := 3, waits := [4, 4] }) := by
  refine ⟨?_, ?_, ?_⟩
  · rcases h1 : outcomes 1 with a | c | m <;>
      rcases h2 : outcomes 2 with a2 | c2 | m2 <;>
        rcases h3 : outcomes 3 with a3 | c3 | m3 <;>
          simp [runRetry, attemptBody, h1, h2, h3]
  · intro hf1 hf2 h3
    rcases h1 : outcomes 1 with a | c | m
    · simp [h1, NetOutcome.isFail] at hf1
    · rcases h2 : outcomes 2 with a2 | c2 | m2
      · simp [h2, NetOutcome.isFail] at hf2
      · simp [runRetry, attemptBody, h1, h2, h3, waitExp_one, waitExp_two]
      · simp [runRetry, attemptBody, h1, h2, h3, waitExp_one, waitExp_two]
    · rcases h2 : outcomes 2 with a2 | c2 | m2
      · simp [h2, NetOutcome.isFail] at hf2
      · simp [runRetry, attemptBody, h1, h2, h3, waitExp_one, waitExp_two]
      · simp [runRetry, attemptBody, h1, h2, h3, waitExp_one, waitExp_two]
  · intro s1 s2 s3 h1 h2 h3
    simp [runRetry, attemptBody, h1, h2, h3, waitExp_one, waitExp_two]

def c7OutcomesRecover : Nat → NetOutcome String :=
  fun n => if n = 3 then NetOutcome.ok "payload" else NetOutcome.httpStatus 500

def c7OutcomesExhaust : Nat → NetOutcome String :=
  fun _ => NetOutcome.httpStatus 503

/-- Witness for C7: fail-fail-succeed yields the payload after 3 attempts;
three straight 503s yield the wrapped upstream error carrying 503. -/
theorem c7_retry_semantics_witness :
    (runRetry true c7OutcomesRecover =
      { result := Except.ok "payload", attempts := 3, networkCalls := 3,
        waits := [4, 4] }) ∧
    (runRetry true c7OutcomesExhaust =
      { result := Except.error (ReqErr.retryError (ReqErr.usdaApiError 503)),
        attempts := 3, networkCalls := 3, waits := [4, 4] }) :=
  ⟨(c7_retry_semantics c7OutcomesRecover "payload").2.1 (by decide) (by decide)
      (by decide),
    (c7_retry_semantics c7OutcomesExhaust "payload").2.2 503 503 503
      (by decide) (by decide) (by decide)⟩

/-! ## Characterization of the `nutrient_comparison` matrix (C8, C9) -/

/-- The allow-listed `(display name, entry)` pairs one food contributes, in
nutrient order. -/
def foodEntries (f : CompareFood) : List (String × CompareEntry) :=
  f.foodNutrients.filterMap (fun n =>
    (keyNutrientName n.nutrientId).map (fun k => (k, mkCompareEntry f n)))

/-- All `(display name, entry)` pairs in processing order: foods in input
order (successes only), nutrients in payload order inside each food. -/
def entryStream (foods : List CompareFood) : List (String × CompareEntry) :=
  foods.flatMap foodEntries

/-- `tableInsert` uncurried, as a fold step. -/
def tableIns (t : CompareTable) (p : String × CompareEntry) : CompareTable :=
  tableInsert t p.1 p.2

/-- The row of the matrix stored under key `k` (empty when absent). -/
def rowOf : CompareTable → String → List CompareEntry
  | [], _ => []
  | (k', es) :: t, k => if k' = k then es else rowOf t k

/-- Keep a key on first sight, drop later repetitions. -/
def dedupStep (acc : List String) (a : String) : List String :=
  if a ∈ acc then acc else acc ++ [a]

/-- The distinct elements of `l` in first-occurrence order. -/
def firstOccurrences (l : List String) : List String :=
  l.foldl dedupStep []

/-- The successfully fetched foods of a comparison request, in input order. -/
def fetchedFoods (ids : List Int) (fetch : Int → Except String CompareFood) :
    List CompareFood :=
  ids.filterMap (fun i => (fetch i).toOption)

lemma rowOf_tableInsert (t : CompareTable) (k : String) (e : CompareEntry)
    (k' : String) :
    rowOf (tableInsert t k e) k' =
      if k = k' then rowOf t k' ++ [e] else rowOf t k' := by
  induction t with
  | nil =>
    by_cases h : k = k' <;> simp [tableInsert, rowOf, h]
  | cons p t ih =>
    obtain ⟨k1, es⟩ := p
    by_cases h1 : k1 = k
    · subst h1
      by_cases h2 : k1 = k' <;> simp [tableInsert, rowOf, h2]
    · by_cases h2 : k1 = k'
      · subst h2
        have : ¬ k = k1 := fun h => h1 h.symm
        simp [tableInsert, rowOf, h1, this]
      · simp [tableInsert, rowOf, h1, h2, ih]

lemma keys_tableInsert (t : CompareTable) (k : String) (e : CompareEntry) :
    (tableInsert t k e).map Prod.fst = dedupStep (t.map Prod.fst) k := by
  induction t with
  | nil => simp [tableInsert, dedupStep]
  | cons p t ih =>
    obtain ⟨k1, es⟩ := p
    by_cases h1 : k1 = k
    · subst h1
      simp [tableInsert, dedupStep]
    · have hne : k ≠ k1 := fun h => h1 h.symm
      have hins : tableInsert ((k1, es) :: t) k e = (k1, es) :: tableInsert t k e := by
        simp [tableInsert, h1]
      rw [hins, List.map_cons, List.map_cons, ih]
      unfold dedupStep
      by_cases h2 : k ∈ t.map Prod.fst
      · rw [if_pos h2, if_pos (List.mem_cons_of_mem _ h2)]
      · rw [if_neg h2, if_neg ?_]
        · rfl
        · intro hmem
          rcases List.mem_cons.1 hmem with h | h
          · exact hne h
          · exact h2 h

lemma rowOf_foldl (s : List (String × CompareEntry)) :
    ∀ (t : CompareTable) (k : String),
      rowOf (s.foldl tableIns t) k =
        rowOf t k ++ (s.filter (fun p => p.1 == k)).map Prod.snd := by
  induction s with
  | nil => intro t k; simp
  | cons p s ih =>
    intro t k
    by_cases h : p.1 = k
    · simp [List.foldl_cons, ih, tableIns, rowOf_tableInsert, h,
        List.filter_cons]
    · have hb : (p.1 == k) = false := by simp [h]
      simp [List.foldl_cons, ih, tableIns, rowOf_tableInsert, h,
        List.filter_cons, hb]

lemma keys_foldl (s : List (String × CompareEntry)) :
    ∀ t : CompareTable,
      (s.foldl tableIns t).map Prod.fst =
        (s.map Prod.fst).foldl dedupStep (t.map Prod.fst) := by
  induction s with
  | nil => intro t; rfl
  | cons p s ih =>
    intro t
    simp only [List.foldl_cons, List.map_cons, ih, tableIns, keys_tableInsert]

lemma nodup_dedup_foldl (l : List String) :
    ∀ acc : List String, acc.Nodup → (l.foldl dedupStep acc).Nodup := by
  induction l with
  | nil => intro acc h; exact h
  | cons a l ih =>
    intro acc h
    refine ih (dedupStep acc a) ?_
    unfold dedupStep
    by_cases ha : a ∈ acc
    · simpa [ha] using h
    · simp [ha, List.nodup_append, h, List.Disjoint]
      intro x hx hxa
      exact ha (hxa ▸ hx)

lemma mem_dedup_foldl (l : List String) :
    ∀ (acc : List String) (a : String), a ∈ l.foldl dedupStep acc →
      a ∈ acc ∨ a ∈ l := by
  induction l with
  | nil => intro acc a h; exact Or.inl h
  | cons b l ih =>
    intro acc a h
    rcases ih (dedupStep acc b) a h with h | h
    · unfold dedupStep at h
      by_cases hb : b ∈ acc
      · rw [if_pos hb] at h
        exact Or.inl h
      · rw [if_neg hb] at h
        rcases List.mem_append.1 h with h | h
        · exact Or.inl h
        · simp at h
          exact Or.inr (h ▸ List.mem_cons_self _ _)
    · exact Or.inr (List.mem_cons_of_mem _ h)

lemma rowOf_eq_of_mem :
    ∀ t : CompareTable, (t.map Prod.fst).Nodup →
      ∀ kv ∈ t, rowOf t kv.1 = kv.2 := by
  intro t
  induction t with
  | nil => intro _ kv h; simp at h
  | cons p t ih =>
    intro hnd kv hkv
    obtain ⟨k1, es⟩ := p
    rw [List.map_cons] at hnd
    have hpair := List.nodup_cons.1 hnd
    rcases List.mem_cons.1 hkv with h | h
    · subst h; simp [rowOf]
    · have hk : k1 ≠ kv.1 := by
        intro he
        have h1 : kv.1 ∈ t.map Prod.fst := List.mem_map.2 ⟨kv, h, rfl⟩
        exact hpair.1 (he ▸ h1)
      simp only [rowOf, if_neg hk]
      exact ih hpair.2 kv h

lemma mem_foodEntries {f : CompareFood} {p : String × CompareEntry}
    (h : p ∈ foodEntries f) :
    ∃ n ∈ f.foodNutrients,
      keyNutrientName n.nutrientId = some p.1 ∧ p.2 = mkCompareEntry f n := by
  rcases List.mem_filterMap.1 h with ⟨n, hn, heq⟩
  rcases Option.map_eq_some'.1 heq with ⟨k, hk, hpk⟩
  refine ⟨n, hn, ?_, ?_⟩
  · rw [hk, ← hpk]
  · rw [← hpk]

lemma keyNutrientName_mem {i : Option Int} {k : String}
    (h : keyNutrientName i = some k) : k ∈ key_nutrients.map Prod.snd := by
  unfold keyNutrientName at h
  match i with
  | none => simp at h
  | some v =>
    rcases Option.map_eq_some'.1 h with ⟨pr, hf, hk⟩
    exact List.mem_map.2 ⟨pr, List.mem_of_find?_eq_some hf, hk⟩

lemma mem_entryStream {foods : List CompareFood} {p : String × CompareEntry}
    (h : p ∈ entryStream foods) : ∃ f ∈ foods, p ∈ foodEntries f :=
  List.mem_flatMap.1 h

lemma processNutrient_snd (f : CompareFood) (ns : List FoodNutrient) :
    ∀ (fs : FoodSummary) (t : CompareTable),
      (ns.foldl (processNutrient f) (fs, t)).2 =
        (ns.filterMap (fun n =>
          (keyNutrientName n.nutrientId).map
            (fun k => (k, mkCompareEntry f n)))).foldl tableIns t := by
  induction ns with
  | nil => intro fs t; rfl
  | cons n ns ih =>
    intro fs t
    match hk : keyNutrientName n.nutrientId with
    | none =>
      simp only [List.foldl_cons, List.filterMap_cons, hk, Option.map_none']
      rw [show processNutrient f (fs, t) n = (fs, t) by
        simp [processNutrient, hk]]
      exact ih fs t
    | some name =>
      simp only [List.foldl_cons, List.filterMap_cons, hk, Option.map_some']
      have hpair : processNutrient f (fs, t) n =
          ((processNutrient f (fs, t) n).1,
            tableInsert t name (mkCompareEntry f n)) := by
        simp [processNutrient, hk, mkCompareEntry]
      rw [hpair]
      exact ih _ _

lemma processFood_snd (t : CompareTable) (f : CompareFood) :
    (processFood t f).2 = (foodEntries f).foldl tableIns t :=
  processNutrient_snd f f.foodNutrients _ t

lemma buildComparison_table_aux (foods : List CompareFood) :
    ∀ (acc : List FoodSummary) (t : CompareTable),
      (foods.foldl
        (fun (acc : List FoodSummary × CompareTable) f =>
          let r := processFood acc.2 f
          (acc.1 ++ [r.1], r.2))
        (acc, t)).2 = (entryStream foods).foldl tableIns t := by
  induction foods with
  | nil => intro acc t; rfl
  | cons f foods ih =>
    intro acc t
    simp only [List.foldl_cons]
    rw [ih]
    show (entryStream foods).foldl tableIns (processFood t f).2 = _
    rw [processFood_snd]
    show _ = ((f :: foods).flatMap foodEntries).foldl tableIns t
    rw [List.flatMap_cons, List.foldl_append]
    rfl

/-- The `nutrient_comparison` matrix is the fold of row insertion over the
entry stream. -/
lemma buildComparison_table (foods : List CompareFood) :
    (buildComparison foods).nutrient_comparison =
      (entryStream foods).foldl tableIns [] :=
  buildComparison_table_aux foods [] []

/-- Row keys appear in first-occurrence order of the entry stream. -/
lemma table_keys (foods : List CompareFood) :
    ((buildComparison foods).nutrient_comparison).map Prod.fst =
      firstOccurrences ((entryStream foods).map Prod.fst) := by
  rw [buildComparison_table, firstOccurrences]
  simpa using keys_foldl (entryStream foods) []

/-- Each row holds exactly the stream's entries for its key, in stream
order. -/
lemma table_rows (foods : List CompareFood) (k : String) :
    rowOf ((buildComparison foods).nutrient_comparison) k =
      ((entryStream foods).filter (fun p => p.1 == k)).map Prod.snd := by
  rw [buildComparison_table]
  simpa [rowOf] using rowOf_foldl (entryStream foods) [] k

lemma table_keys_nodup (foods : List CompareFood) :
    (((buildComparison foods).nutrient_comparison).map Prod.fst).Nodup := by
  rw [table_keys]
  exact nodup_dedup_foldl _ [] List.nodup_nil

/-- **C8.** For a comparison request with 2-5 ids (at least one of which
fetches successfully), the response's data is the comparison built from the
successfully fetched foods in input order, and its `nutrient_comparison`
matrix satisfies: every row key is one of the 8 allow-listed display names;
every entry references a successfully fetched food's description; row order
is the first-occurrence order of keys across the entry stream (foods in
input order, failed fetches skipped); and each row holds exactly the
stream's entries for its key, in food processing order. -/
theorem c8_comparison_table_shape
    (ids : List Int) (fetch : Int → Except String CompareFood)
    (h2 : 2 ≤ ids.length) (h5 : ids.length ≤ 5)
    (hne : fetchedFoods ids fetch ≠ []) :
    (compare_foods ids fetch).1.data =
      some (buildComparison (fetchedFoods ids fetch)) ∧
    (∀ kv ∈ (buildComparison (fetchedFoods ids fetch)).nutrient_comparison,
      kv.1 ∈ key_nutrients.map Prod.snd) ∧
    (∀ kv ∈ (buildComparison (fetchedFoods ids fetch)).nutrient_comparison,
      ∀ e ∈ kv.2, e.food ∈ (fetchedFoods ids fetch).map CompareFood.description) ∧
    ((buildComparison (fetchedFoods ids fetch)).nutrient_comparison.map Prod.fst =
      firstOccurrences ((entryStream (fetchedFoods ids fetch)).map Prod.fst)) ∧
    (∀ k, rowOf ((buildComparison (fetchedFoods ids fetch)).nutrient_comparison) k =
      ((entryStream (fetchedFoods ids fetch)).filter
        (fun p => p.1 == k)).map Prod.snd) := by
  refine ⟨?_, ?_, ?_, table_keys _, table_rows _⟩
  · have h5' : ¬ ids.length > 5 := by omega
    have hemp : (ids.filterMap (fun i => (fetch i).toOption)).isEmpty = false :=
      List.isEmpty_eq_false.2 hne
    simp [compare_foods, if_neg h5', hemp, fetchedFoods]
  · intro kv hkv
    have hk : kv.1 ∈
        ((buildComparison (fetchedFoods ids fetch)).nutrient_comparison).map Prod.fst :=
      List.mem_map.2 ⟨kv, hkv, rfl⟩
    rw [table_keys] at hk
    rcases mem_dedup_foldl _ [] kv.1 hk with h | h
    · simp at h
    · rcases List.mem_map.1 h with ⟨p, hp, hpk⟩
      rcases mem_entryStream hp with ⟨f, _, hpf⟩
      rcases mem_foodEntries hpf with ⟨n, _, hname, _⟩
      exact hpk ▸ keyNutrientName_mem hname
  · intro kv hkv e he
    have hrow : kv.2 =
        rowOf ((buildComparison (fetchedFoods ids fetch)).nutrient_comparison) kv.1 :=
      (rowOf_eq_of_mem _ (table_keys_nodup _) kv hkv).symm
    rw [hrow, table_rows] at he
    rcases List.mem_map.1 he with ⟨p, hp, hpe⟩
    have hp' : p ∈ entryStream (fetchedFoods ids fetch) := List.mem_of_mem_filter hp
    rcases mem_entryStream hp' with ⟨f, hf, hpf⟩
    rcases mem_foodEntries hpf with ⟨n, _, _, hpn⟩
    have : e.food = f.description := by
      rw [← hpe, hpn, mkCompareEntry]
    exact this ▸ List.mem_map.2 ⟨f, hf, rfl⟩

def c8FoodA : CompareFood :=
  ⟨some 10, some "A", some "Foundation",
    [⟨some 1003, some "Protein", some "g", some (some 31)⟩,
     ⟨some 1089, some "Iron", some "mg", some (some 2)⟩]⟩

def c8FoodB : CompareFood :=
  ⟨some 20, some "B", some "Foundation",
    [⟨some 1003, some "Protein", some "g", some (some 25)⟩]⟩

def c8Fetch : Int → Except String CompareFood :=
  fun i =>
    if i = 10 then Except.ok c8FoodA
    else if i = 20 then Except.ok c8FoodB
    else Except.error "not found"

/-- Witness for C8 at ids `[10, 20]`: the data payload, the key order
(`Protein` before `Iron`, first-occurrence order) and the `Protein` row
(entries for foods A then B, in input order). -/
theorem c8_comparison_table_shape_witness :
    (compare_foods [10, 20] c8Fetch).1.data =
      some (buildComparison (fetchedFoods [10, 20] c8Fetch)) ∧
    ((buildComparison (fetchedFoods [10, 20] c8Fetch)).nutrient_comparison.map Prod.fst =
      firstOccurrences ((entryStream (fetchedFoods [10, 20] c8Fetch)).map Prod.fst)) ∧
    (rowOf ((buildComparison (fetchedFoods [10, 20] c8Fetch)).nutrient_comparison)
        "Protein" =
      ((entryStream (fetchedFoods [10, 20] c8Fetch)).filter
        (fun p => p.1 == "Protein")).map Prod.snd) := by
  have h := c8_comparison_table_shape [10, 20] c8Fetch (by decide) (by decide)
    (by decide)
  exact ⟨h.1, h.2.2.2.1, h.2.2.2.2 "Protein"⟩

/-- **C9 (amended).** In `compare_foods`, an allow-listed nutrient whose
`amount` key is missing gets amount defaulted to `0`, and an allow-listed
nutrient whose amount is explicitly `null` keeps the `null` (it is not
defaulted to 0); in both cases the entry still contributes to
its comparison row; the nutrient is included either way, unlike
classification, which drops amount-less records
entirely. -/
theorem c9_null_amount_entries
    (f : CompareFood) (n : FoodNutrient) (k : String)
    (hn : n ∈ f.foodNutrients)
    (hk : keyNutrientName n.nutrientId = some k) :
    (n.amount = none → (mkCompareEntry f n).amount = some 0) ∧
    (n.amount = some none → (mkCompareEntry f n).amount = none) ∧
    mkCompareEntry f n ∈
      rowOf ((buildComparison [f]).nutrient_comparison) k := by
  refine ⟨?_, ?_, ?_⟩
  · intro h; simp [mkCompareEntry, compareAmount, h]
  · intro h; simp [mkCompareEntry, compareAmount, h]
  · rw [table_rows]
    have hmem : (k, mkCompareEntry f n) ∈ entryStream [f] := by
      have : (k, mkCompareEntry f n) ∈ foodEntries f :=
        List.mem_filterMap.2 ⟨n, hn, by rw [hk]; rfl⟩
      simpa [entryStream] using this
    have hfil : (k, mkCompareEntry f n) ∈
        (entryStream [f]).filter (fun p => p.1 == k) :=
      List.mem_filter.2 ⟨hmem, by simp⟩
    exact List.mem_map.2 ⟨(k, mkCompareEntry f n), hfil, rfl⟩

def c9NutMissing : FoodNutrient := ⟨some 1089, some "Iron", some "mg", none⟩

def c9FoodMissing : CompareFood :=
  ⟨some 40, some "B", some "Foundation", [c9NutMissing]⟩

/-- Witness for C9 (amended): an Iron nutrient with no `amount` key yields a
table entry with amount 0, present in the Iron row. -/
theorem c9_null_amount_entries_witness :
    (mkCompareEntry c9FoodMissing c9NutMissing).amount = some 0 ∧
    mkCompareEntry c9FoodMissing c9NutMissing ∈
      rowOf ((buildComparison [c9FoodMissing]).nutrient_comparison) "Iron" := by
  have h := c9_null_amount_entries c9FoodMissing c9NutMissing "Iron"
    (by decide) (by decide)
  exact ⟨h.1 rfl, h.2.2⟩

def c9Food : CompareFood :=
  ⟨some 30, some "A", some "Foundation",
    [⟨some 1003, some "Protein", some "g", some none⟩]⟩

/-- Counterexample to C9 as stated: for a `Protein` nutrient carrying an
explicit `null` amount, the comparison-row entry has amount `null`
(Python's `dict.get("amount", 0)` only defaults when the key is absent),
not the claimed `0`. -/
theorem c9_null_amount_entries_counterexample :
    rowOf ((buildComparison [c9Food]).nutrient_comparison) "Protein" =
      [{ food := some "A", amount := none, unit := "g" }] ∧
    ({ food := some "A", amount := none, unit := "g" } : CompareEntry).amount ≠
      some 0 := by
  constructor
  · rfl
  · simp

/-! ## The `search_foods` endpoint (source lines 271-324) -/

/-- A raw food object of the upstream search payload: the fields
`search_foods` reads via `food.get(...)`. -/
structure SearchRawFood where
  fdcId : Option Int
  description : Option String
  dataType : Option String
  foodCategory : Option String
  brandOwner : Option String
  ingredients : Option String
deriving DecidableEq, Repr

/-- The upstream search result as read by `search_foods`
(`result.get("foods")` and the paging fields). -/
structure SearchPayload where
  foods : Option (List SearchRawFood)
  totalPages : Option Int
  pageSize : Option Int
  currentPage : Option Int
deriving DecidableEq, Repr

/-- One reformatted food of the endpoint's `formatted_foods`. -/
structure FormattedFood where
  fdc_id : Option Int
  description : Option String
  data_type : Option String
  food_category : Option String
  brand_owner : Option String
  ingredients : Option String
deriving DecidableEq, Repr

/-- The inner `response_data` dict of `search_foods`: the success branch
fills the result fields, the no-foods branch carries its own `success=False`
and error message. -/
structure SearchData where
  success : Bool
  total_results : Option Int := none
  current_page : Option Int := none
  foods : List FormattedFood := []
  message : Option String := none
  error : Option String := none
deriving DecidableEq, Repr

def formatFood (f : SearchRawFood) : FormattedFood :=
  ⟨f.fdcId, f.description, f.dataType, f.foodCategory, f.brandOwner,
    f.ingredients⟩

/-- The `search_foods` endpoint. `upstream` abstracts
`usda_client.search_foods`: the parsed payload or a raised exception.
`if result.get("foods"):` is truthy only for a present, non-empty list. -/
def search_foods (query : String) (upstream : Except String SearchPayload) :
    MCPResponse SearchData :=
  match upstream with
  | Except.error e =>
    { success := false, error := some ("Search failed: " ++ e),
      tool := some "search_foods" }
  | Except.ok result =>
    match result.foods with
    | some (f :: fs) =>
      let formatted := ((f :: fs).take 10).map formatFood
      { success := true,
        data := some
          ({ success := true,
             total_results := some (result.totalPages.getD 0 * result.pageSize.getD 0),
             current_page := some (result.currentPage.getD 1),
             foods := formatted,
             message := some ("Found " ++ toString formatted.length ++
               " foods matching '" ++ query ++ "'") } : SearchData),
        tool := some "search_foods" }
    | _ =>
      { success := true,
        data := some
          ({ success := false,
             error := some "No foods found",
             foods := [] } : SearchData),
        tool := some "search_foods" }

/-- **C10.** When the upstream search succeeds but carries zero foods, the
envelope's top-level `success` flag is `true` while the inner data payload
has `success=false` and error "No foods found": the top-level flag does not
reflect the empty result. -/
theorem c10_empty_search_envelope (query : String) (result : SearchPayload)
    (h : result.foods = some []) :
    (search_foods query (Except.ok result)).success = true ∧
    (search_foods query (Except.ok result)).data =
      some { success := false, error := some "No foods found", foods := [] } := by
  obtain ⟨fds, tp, ps, cp⟩ := result
  have h' : fds = some [] := h
  subst h'
  exact ⟨rfl, rfl⟩

/-- Witness for C10 at a concrete empty payload. -/
theorem c10_empty_search_envelope_witness :
    (search_foods "apple" (Except.ok ⟨some [], some 0, some 25, some 1⟩)).success
        = true ∧
    (search_foods "apple" (Except.ok ⟨some [], some 0, some 25, some 1⟩)).data =
      some { success := false, error := some "No foods found", foods := [] } :=
  c10_empty_search_envelope "apple" ⟨some [], some 0, some 25, some 1⟩ rfl

end NutritionMCP
